import Mathlib

/-!
Shallow embedding of the Second Life style camera addon for Blender
(`src/__init__.py`, class `SL_CAMERA_OT_modal`).  Floating point values are
modelled as real numbers; the Blender viewport state that the operator reads
and writes (`region_3d.view_location`, `view_rotation`, `view_distance`) is
carried explicitly in the session state.  Host primitives from `mathutils`
(vector length/normalisation, quaternion slerp and rotation, `to_track_quat`)
are modelled by their standard mathematical definitions; no verified claim
depends on the internal value of `to_track_quat`.
-/

namespace SLCamera

/-- Three dimensional vector of reals, modelling `mathutils.Vector`. -/
structure Vec3 where
  x : ℝ
  y : ℝ
  z : ℝ

instance : Add Vec3 := ⟨fun a b => ⟨a.x + b.x, a.y + b.y, a.z + b.z⟩⟩

instance : Sub Vec3 := ⟨fun a b => ⟨a.x - b.x, a.y - b.y, a.z - b.z⟩⟩

/-- Scalar multiple of a vector. -/
def vsmul (r : ℝ) (v : Vec3) : Vec3 := ⟨r * v.x, r * v.y, r * v.z⟩

/-- Euclidean length of a vector, modelling `Vector.length`. -/
noncomputable def Vec3.length (v : Vec3) : ℝ :=
  Real.sqrt (v.x ^ 2 + v.y ^ 2 + v.z ^ 2)

/-- Unit vector in the direction of `v`, modelling `Vector.normalized()`
(which returns the zero vector for zero input). -/
noncomputable def Vec3.normalized (v : Vec3) : Vec3 :=
  if v.length = 0 then ⟨0, 0, 0⟩
  else ⟨v.x / v.length, v.y / v.length, v.z / v.length⟩

/-- Linear interpolation of vectors, modelling `Vector.lerp`. -/
def vlerp (a b : Vec3) (t : ℝ) : Vec3 :=
  vsmul (1 - t) a + vsmul t b

/-- Quaternion (w, x, y, z) of reals, modelling `mathutils.Quaternion`. -/
structure Quat where
  w : ℝ
  x : ℝ
  y : ℝ
  z : ℝ

/-- Componentwise sum of quaternions. -/
def qadd (a b : Quat) : Quat := ⟨a.w + b.w, a.x + b.x, a.y + b.y, a.z + b.z⟩

/-- Scalar multiple of a quaternion. -/
def qsmul (r : ℝ) (a : Quat) : Quat := ⟨r * a.w, r * a.x, r * a.y, r * a.z⟩

/-- Four dimensional dot product of quaternions. -/
def qdot (a b : Quat) : ℝ := a.w * b.w + a.x * b.x + a.y * b.y + a.z * b.z

/-- Hamilton product of quaternions. -/
def qmul (a b : Quat) : Quat :=
  ⟨a.w * b.w - a.x * b.x - a.y * b.y - a.z * b.z,
   a.w * b.x + a.x * b.w + a.y * b.z - a.z * b.y,
   a.w * b.y - a.x * b.z + a.y * b.w + a.z * b.x,
   a.w * b.z + a.x * b.y - a.y * b.x + a.z * b.w⟩

/-- Quaternion conjugate. -/
def qconj (a : Quat) : Quat := ⟨a.w, -a.x, -a.y, -a.z⟩

/-- Rotation of a vector by a (unit) quaternion, modelling application of
the rotation matrix `view_mat.to_3x3()` derived from a view quaternion. -/
def qrot (q : Quat) (v : Vec3) : Vec3 :=
  let r := qmul (qmul q ⟨0, v.x, v.y, v.z⟩) (qconj q)
  ⟨r.x, r.y, r.z⟩

/-- Spherical linear interpolation of quaternions, modelling the external
`mathutils` `Quaternion.slerp` by the standard geodesic formula (with linear
interpolation as the degenerate fallback); it interpolates the endpoints
exactly. -/
noncomputable def slerp (a b : Quat) (t : ℝ) : Quat :=
  let omega := Real.arccos (qdot a b)
  if Real.sin omega = 0 then
    qadd (qsmul (1 - t) a) (qsmul t b)
  else
    qadd (qsmul (Real.sin ((1 - t) * omega) / Real.sin omega) a)
         (qsmul (Real.sin (t * omega) / Real.sin omega) b)

/-- Two argument arctangent, modelling Python `math.atan2(y, x)` via the
complex argument of `x + y·i`. -/
noncomputable def atan2 (y x : ℝ) : ℝ := Complex.arg ⟨x, y⟩

/-- Degrees to radians, modelling Python `math.radians`. -/
noncomputable def radians (x : ℝ) : ℝ := x * Real.pi / 180

/-- The quadratic ease in/out curve of `_update_transition`
(lines 345-348 of `src/__init__.py`). -/
noncomputable def ease (p : ℝ) : ℝ :=
  if p < 0.5 then 2 * p * p else 1 - (-2 * p + 2) ^ 2 / 2

/-- Model of the external `mathutils` `Vector.to_track_quat('-Z', 'Y')`: a
quaternion orienting the camera's −Z axis along `d` (shortest arc from
(0, 0, −1) to the direction of `d`; the Y-twist convention is irrelevant to
every verified claim, which treat this value opaquely). -/
noncomputable def to_track_quat (d : Vec3) : Quat :=
  let n := d.normalized
  let q : Quat := ⟨1 - n.z, n.y, -n.x, 0⟩
  let l := Real.sqrt (qdot q q)
  if l = 0 then ⟨1, 0, 0, 0⟩ else qsmul (1 / l) q

/-- Interaction mode of the operator (`camera_mode` / `self.mode`). -/
inductive Mode where
  | FOCUS : Mode
  | ORBIT : Mode
  | PAN : Mode
deriving DecidableEq

/-- Addon preferences (`SLCameraPreferences`), read-only during a session. -/
structure Prefs where
  pan_sensitivity : ℝ
  zoom_sensitivity : ℝ
  orbit_sensitivity : ℝ
  invert_horizontal : Bool
  invert_vertical : Bool
  min_zoom_distance : ℝ
  max_zoom_distance : ℝ
  orbit_elevation_limit : ℝ

/-- The viewport view state (`context.space_data.region_3d`) as written by
the operator: `view_location`, `view_rotation`, `view_distance`. -/
structure RV3D where
  view_location : Vec3
  view_rotation : Quat
  view_distance : ℝ

/-- Session state of `SL_CAMERA_OT_modal`: the spherical coordinate state,
transition state, mode, pointer tracking, and the viewport state it writes
(the camera-lock sub-mode is not modelled; `camera_lock_mode = False`). -/
structure State where
  mode : Mode
  target_point : Option Vec3
  theta : ℝ
  phi : ℝ
  distance : ℝ
  is_transitioning : Bool
  start_rotation : Quat
  end_rotation : Quat
  transition_start_time : ℝ
  start_target : Vec3
  end_target : Vec3
  initial_cam_pos : Vec3
  rv3d : RV3D
  last_x : ℝ
  last_y : ℝ
  mouse_down : Bool

/-- Fixed transition duration in milliseconds (`transition_duration = 150`). -/
def transition_duration : ℝ := 150

/-- Spherical-to-Cartesian conversion of `_update_camera_position`
(lines 166-168): the camera position computed from target, θ, φ, distance. -/
noncomputable def camera_position (target : Vec3) (theta phi d : ℝ) : Vec3 :=
  ⟨target.x + d * Real.sin phi * Real.cos theta,
   target.y + d * Real.sin phi * Real.sin theta,
   target.z + d * Real.cos phi⟩

/-- Inverse conversion `_direction_to_spherical` (lines 148-158), returning
the pair (θ, φ).  The fallback pair stands for the optional defaults: callers
pass either the π/4 defaults (`invoke`) or the current angles
(`_update_transition`, which passes no defaults and so leaves θ, φ as they
were). -/
noncomputable def direction_to_spherical (direction : Vec3) (theta0 phi0 : ℝ) :
    ℝ × ℝ :=
  if 0 < direction.length then
    let n := direction.normalized
    (atan2 n.y n.x, Real.arccos (max (-1) (min 1 n.z)))
  else (theta0, phi0)

/-- `_update_camera_position` (lines 160-182), camera-lock off: convert the
spherical state to a camera position, build the look-at rotation, and write
`view_location`, `view_rotation`, `view_distance`. -/
noncomputable def update_camera_position (s : State) : State :=
  match s.target_point with
  | none => s
  | some t =>
    let camera_pos := camera_position t s.theta s.phi s.distance
    let direction := (t - camera_pos).normalized
    let look_at_rotation := to_track_quat direction
    { s with rv3d := ⟨t, look_at_rotation, s.distance⟩ }

/-- `_start_transition` (lines 306-333), camera-lock off: capture start
rotation/target and the physical camera position, compute the end rotation
via look-at toward the new target, and start the timer at time `now`
(milliseconds).  The physical camera position `view_mat.translation` is the
viewport camera's world position, `view_location + view_distance ·
rotate(view_rotation, (0,0,1))`. -/
noncomputable def start_transition (now : ℝ) (target : Vec3) (s : State) :
    State :=
  let s0 := match s.target_point with
            | none => { s with target_point := some s.rv3d.view_location }
            | some _ => s
  let start_tgt := s0.target_point.getD s0.rv3d.view_location
  let cam_pos := s0.rv3d.view_location +
    vsmul s0.rv3d.view_distance (qrot s0.rv3d.view_rotation ⟨0, 0, 1⟩)
  let direction := (target - cam_pos).normalized
  { s0 with
    start_target := start_tgt,
    initial_cam_pos := cam_pos,
    start_rotation := s0.rv3d.view_rotation,
    end_rotation := to_track_quat direction,
    end_target := target,
    is_transitioning := true,
    transition_start_time := now,
    target_point := some target }

/-- Transition progress of `_update_transition` (lines 340-342) for a
transition started at `t0`, evaluated at time `now` (milliseconds). -/
noncomputable def progressOf (t0 now : ℝ) : ℝ :=
  min 1 ((now - t0) / transition_duration)

/-- Interpolated rotation of `_update_transition` (line 351) at time `now`. -/
noncomputable def rotationOf (start_rot end_rot : Quat) (t0 now : ℝ) : Quat :=
  slerp start_rot end_rot (ease (progressOf t0 now))

/-- `_update_transition` (lines 335-371), camera-lock off: interpolate
rotation and target, write the viewport pose with the physical camera
position held fixed, and on completion lock in the final target and
re-derive the spherical state. -/
noncomputable def update_transition (now : ℝ) (s : State) : State :=
  if s.is_transitioning = false then s
  else
    let progress := progressOf s.transition_start_time now
    let eased := ease progress
    let current_rotation := slerp s.start_rotation s.end_rotation eased
    let current_target := vlerp s.start_target s.end_target eased
    let s1 := { s with rv3d :=
      ⟨current_target, current_rotation,
       (s.initial_cam_pos - current_target).length⟩ }
    if 1 ≤ progress then
      let s2 := { s1 with
        is_transitioning := false,
        target_point := some s1.end_target }
      let direction := s2.initial_cam_pos - s2.end_target
      let angles := direction_to_spherical direction s2.theta s2.phi
      { s2 with distance := direction.length,
                theta := angles.1, phi := angles.2 }
    else s1

/-- `_handle_target_click` (lines 401-411) with the raycast outcome made
explicit: a hit starts a transition to the hit point, a miss clears the
target point. -/
noncomputable def handle_target_click (now : ℝ) (ray : Option Vec3)
    (s : State) : State :=
  match ray with
  | some location => start_transition now location s
  | none => { s with target_point := none }

/-- `_handle_pan_click` (lines 413-421): a hit starts a transition, a miss
leaves the state unchanged (prior target retained). -/
noncomputable def handle_pan_click (now : ℝ) (ray : Option Vec3) (s : State) :
    State :=
  match ray with
  | some location => start_transition now location s
  | none => s

/-- `_handle_focus_drag` (lines 423-453): horizontal orbiting plus zoom with
the smooth distance-based compensation curve and the zoom clamp. -/
noncomputable def handle_focus_drag (p : Prefs) (dx dy : ℝ) (s : State) :
    State :=
  match s.target_point with
  | none => s
  | some _ =>
    let theta_delta := if p.invert_horizontal then dx else -dx
    let zoom_delta := dy
    let s1 := { s with theta := s.theta + theta_delta * p.orbit_sensitivity }
    let s2 :=
      if zoom_delta ≠ 0 then
        let base_factor := s1.distance * 0.1
        let fine_control_factor :=
          0.01 + (base_factor - 0.01) * (s1.distance / (s1.distance + 0.5))
        let distance_factor := max 0.01 fine_control_factor
        let zoom_change := -zoom_delta * p.zoom_sensitivity * distance_factor
        { s1 with distance :=
            (max p.min_zoom_distance
              (min p.max_zoom_distance (s1.distance + zoom_change))) }
      else s1
    update_camera_position s2

/-- `_handle_orbit_drag` (lines 455-476): orbit at constant distance with
the elevation clamp on φ. -/
noncomputable def handle_orbit_drag (p : Prefs) (dx dy : ℝ) (s : State) :
    State :=
  match s.target_point with
  | none => s
  | some _ =>
    let theta_delta := if p.invert_horizontal then dx else -dx
    let phi_delta := if p.invert_vertical then dy else -dy
    let new_phi := s.phi - phi_delta * p.orbit_sensitivity
    let min_phi_from_pole := radians (90 - p.orbit_elevation_limit)
    let min_phi := min_phi_from_pole
    let max_phi := Real.pi - min_phi_from_pole
    update_camera_position
      { s with theta := s.theta + theta_delta * p.orbit_sensitivity,
               phi := max min_phi (min max_phi new_phi) }

/-- Pan vector of `_handle_pan_drag` (lines 481-496): camera right/up axes
from the view rotation, scaled by the distance-proportional sensitivity. -/
noncomputable def pan_vec (p : Prefs) (rot : Quat) (dist dx dy : ℝ) : Vec3 :=
  let pan_dx := if p.invert_horizontal then dx else -dx
  let pan_dy := if p.invert_vertical then dy else -dy
  let right_vec := qrot rot ⟨1, 0, 0⟩
  let up_vec := qrot rot ⟨0, 1, 0⟩
  let sensitivity := p.pan_sensitivity * max 0.01 dist
  vsmul sensitivity (vsmul pan_dx right_vec + vsmul pan_dy up_vec)

/-- `_handle_pan_drag` (lines 478-506), camera-lock off: translate the
target point and the view location by the pan vector.  The handler does not
guard the target point; `self.target_point += pan_vec` raises a `TypeError`
when the target is `None`, modelled as `none`. -/
noncomputable def handle_pan_drag (p : Prefs) (dx dy : ℝ) (s : State) :
    Option State :=
  let v := pan_vec p s.rv3d.view_rotation s.distance dx dy
  match s.target_point with
  | none => none
  | some t =>
    some { s with
      target_point := some (t + v),
      rv3d := { s.rv3d with view_location := s.rv3d.view_location + v } }

/-- `_set_mode` (lines 517-532): change mode, stop any transition, and give
ORBIT/PAN a target point when none is present. -/
def set_mode (new_mode : Mode) (s : State) : State :=
  if new_mode = s.mode then s
  else
    let s1 := { s with mode := new_mode, is_transitioning := false }
    match new_mode, s1.target_point with
    | Mode.ORBIT, none => { s1 with target_point := some s1.rv3d.view_location }
    | Mode.PAN, none => { s1 with target_point := some s1.rv3d.view_location }
    | _, _ => s1

/-- `_handle_mouse_move` (lines 543-564): dispatch the active mode's drag
handler when dragging and not transitioning, then always record the pointer
position.  The `none` outcome propagates a PAN drag `TypeError`. -/
noncomputable def handle_mouse_move (p : Prefs) (mx my : ℝ) (s : State) :
    Option State :=
  let dx := mx - s.last_x
  let dy := my - s.last_y
  let s1 :=
    if s.mouse_down = true ∧ (dx ≠ 0 ∨ dy ≠ 0) then
      if s.is_transitioning = false then
        match s.mode with
        | Mode.FOCUS => some (handle_focus_drag p dx dy s)
        | Mode.ORBIT => some (handle_orbit_drag p dx dy s)
        | Mode.PAN => handle_pan_drag p dx dy s
      else some s
    else some s
  s1.map fun t => { t with last_x := mx, last_y := my }

theorem quat_ext {a b : Quat} (hw : a.w = b.w) (hx : a.x = b.x)
    (hy : a.y = b.y) (hz : a.z = b.z) : a = b := by
  cases a; cases b; simp_all

theorem vec3_ext {a b : Vec3} (hx : a.x = b.x) (hy : a.y = b.y)
    (hz : a.z = b.z) : a = b := by
  cases a; cases b; simp_all

@[simp] theorem Vec3.sub_x (a b : Vec3) : (a - b).x = a.x - b.x := rfl

@[simp] theorem Vec3.sub_y (a b : Vec3) : (a - b).y = a.y - b.y := rfl

@[simp] theorem Vec3.sub_z (a b : Vec3) : (a - b).z = a.z - b.z := rfl

@[simp] theorem Vec3.add_x (a b : Vec3) : (a + b).x = a.x + b.x := rfl

@[simp] theorem Vec3.add_y (a b : Vec3) : (a + b).y = a.y + b.y := rfl

@[simp] theorem Vec3.add_z (a b : Vec3) : (a + b).z = a.z + b.z := rfl

theorem update_camera_position_preserves (s : State) :
    (update_camera_position s).mode = s.mode ∧
    (update_camera_position s).target_point = s.target_point ∧
    (update_camera_position s).theta = s.theta ∧
    (update_camera_position s).phi = s.phi ∧
    (update_camera_position s).distance = s.distance ∧
    (update_camera_position s).is_transitioning = s.is_transitioning := by
  unfold update_camera_position
  cases h : s.target_point <;> simp [h]

theorem slerp_zero (a b : Quat) : slerp a b 0 = a := by
  unfold slerp
  by_cases h : Real.sin (Real.arccos (qdot a b)) = 0
  · rw [if_pos h]
    cases a; cases b
    simp [qadd, qsmul]
  · rw [if_neg h]
    cases a; cases b
    simp [qadd, qsmul, div_self h]

theorem slerp_one (a b : Quat) : slerp a b 1 = b := by
  unfold slerp
  by_cases h : Real.sin (Real.arccos (qdot a b)) = 0
  · rw [if_pos h]
    cases a; cases b
    simp [qadd, qsmul]
  · rw [if_neg h]
    cases a; cases b
    simp [qadd, qsmul, div_self h]

theorem ease_zero : ease 0 = 0 := by
  norm_num [ease]

theorem ease_one : ease 1 = 1 := by
  norm_num [ease]

/-- C5: the easing function of `_update_transition` (2p² for p < 0.5, else
1 − (−2p + 2)²/2) satisfies ease(0) = 0, ease(1) = 1, ease(0.5) = 0.5, and
is (strictly) monotonically increasing on [0, 1]. -/
theorem ease_correct :
    ease 0 = 0 ∧ ease 1 = 1 ∧ ease 0.5 = 0.5 ∧
    StrictMonoOn ease (Set.Icc (0 : ℝ) 1) := by
  refine ⟨ease_zero, ease_one, by norm_num [ease], ?_⟩
  intro p hp q hq hpq
  rw [Set.mem_Icc] at hp hq
  obtain ⟨hp0, hp1⟩ := hp
  obtain ⟨hq0, hq1⟩ := hq
  unfold ease
  by_cases h1 : p < 0.5 <;> by_cases h2 : q < 0.5
  · rw [if_pos h1, if_pos h2]
    nlinarith
  · rw [if_pos h1, if_neg h2]
    push_neg at h2
    have ha : (0 : ℝ) ≤ 2 - 2 * q := by linarith
    have hb : 2 - 2 * q ≤ 1 := by norm_num at h2; linarith
    nlinarith
  · push_neg at h1
    norm_num at h1 h2
    linarith
  · rw [if_neg h1, if_neg h2]
    push_neg at h1 h2
    have ha : (0 : ℝ) ≤ 2 - 2 * q := by linarith
    have hb : 2 - 2 * q < 2 - 2 * p := by linarith
    nlinarith

theorem ease_correct_witness :
    ease 0 = 0 ∧ ease (1 / 4) < ease (3 / 4) :=
  ⟨ease_correct.1,
   ease_correct.2.2.2 (by rw [Set.mem_Icc]; norm_num)
     (by rw [Set.mem_Icc]; norm_num) (by norm_num)⟩

/-- C2: for a transition begun at `t0` with the fixed 150 ms duration, the
progress computed by `_update_transition` is 0 at `t0`, is 1 at any time
≥ `t0` + 150 ms, is monotonically non-decreasing in the evaluation time, and
the interpolated rotation equals the start rotation exactly at progress 0
and the end rotation exactly at progress 1. -/
theorem transition_progress_correct (t0 t : ℝ) (a b : Quat) :
    progressOf t0 t0 = 0 ∧
    (t0 + transition_duration ≤ t → progressOf t0 t = 1) ∧
    (∀ t1 t2 : ℝ, t1 ≤ t2 → progressOf t0 t1 ≤ progressOf t0 t2) ∧
    rotationOf a b t0 t0 = a ∧
    (t0 + transition_duration ≤ t → rotationOf a b t0 t = b) := by
  have hp0 : progressOf t0 t0 = 0 := by
    simp [progressOf]
  have hp1 : t0 + transition_duration ≤ t → progressOf t0 t = 1 := by
    intro h
    rw [transition_duration] at h
    have : (1 : ℝ) ≤ (t - t0) / transition_duration := by
      rw [transition_duration, le_div_iff₀ (by norm_num : (0:ℝ) < 150)]
      linarith
    simp [progressOf, min_eq_left this]
  refine ⟨hp0, hp1, ?_, ?_, ?_⟩
  · intro t1 t2 h
    unfold progressOf
    refine min_le_min le_rfl ?_
    rw [transition_duration]
    exact (div_le_div_iff_of_pos_right (by norm_num : (0:ℝ) < 150)).mpr
      (by linarith)
  · rw [rotationOf, hp0, ease_zero, slerp_zero]
  · intro h
    rw [rotationOf, hp1 h, ease_one, slerp_one]

theorem transition_progress_correct_witness :
    progressOf 0 0 = 0 ∧ progressOf 0 200 = 1 ∧
    progressOf 0 10 ≤ progressOf 0 20 ∧
    rotationOf ⟨1, 0, 0, 0⟩ ⟨0, 1, 0, 0⟩ 0 0 = ⟨1, 0, 0, 0⟩ ∧
    rotationOf ⟨1, 0, 0, 0⟩ ⟨0, 1, 0, 0⟩ 0 200 = ⟨0, 1, 0, 0⟩ := by
  have h := transition_progress_correct 0 200 ⟨1, 0, 0, 0⟩ ⟨0, 1, 0, 0⟩
  exact ⟨h.1, h.2.1 (by rw [transition_duration]; norm_num),
    h.2.2.1 10 20 (by norm_num), h.2.2.2.1,
    h.2.2.2.2 (by rw [transition_duration]; norm_num)⟩

/-- C3: after any ORBIT drag (any dx, dy, with a target point present), the
polar angle φ lies within
[radians(90 − orbitElevationLimit), π − radians(90 − orbitElevationLimit)],
for any elevation limit within its configured range [45, 89]. -/
theorem orbit_drag_phi_within_bounds (p : Prefs) (s : State) (dx dy : ℝ)
    (tgt : Vec3) (htgt : s.target_point = some tgt)
    (hL1 : 45 ≤ p.orbit_elevation_limit)
    (hL2 : p.orbit_elevation_limit ≤ 89) :
    radians (90 - p.orbit_elevation_limit) ≤
      (handle_orbit_drag p dx dy s).phi ∧
    (handle_orbit_drag p dx dy s).phi ≤
      Real.pi - radians (90 - p.orbit_elevation_limit) := by
  have hpi := Real.pi_pos
  have hmm : radians (90 - p.orbit_elevation_limit) ≤
      Real.pi - radians (90 - p.orbit_elevation_limit) := by
    rw [radians]
    nlinarith
  have hphi : (handle_orbit_drag p dx dy s).phi =
      max (radians (90 - p.orbit_elevation_limit))
        (min (Real.pi - radians (90 - p.orbit_elevation_limit))
          (s.phi - (if p.invert_vertical then dy else -dy) *
            p.orbit_sensitivity)) := by
    unfold handle_orbit_drag
    rw [htgt]
    simp [update_camera_position]
  rw [hphi]
  exact ⟨le_max_left _ _, max_le hmm (min_le_left _ _)⟩

theorem orbit_drag_phi_within_bounds_witness :
    radians (90 - 85) ≤
      (handle_orbit_drag ⟨0.001, 0.04, 0.004, false, false, 0.01, 200, 85⟩
        3 4
        ⟨Mode.ORBIT, some ⟨0, 0, 0⟩, 0, 1, 14, false, ⟨1, 0, 0, 0⟩,
         ⟨1, 0, 0, 0⟩, 0, ⟨0, 0, 0⟩, ⟨0, 0, 0⟩, ⟨0, 0, 0⟩,
         ⟨⟨0, 0, 0⟩, ⟨1, 0, 0, 0⟩, 14⟩, 0, 0, true⟩).phi ∧
    (handle_orbit_drag ⟨0.001, 0.04, 0.004, false, false, 0.01, 200, 85⟩
        3 4
        ⟨Mode.ORBIT, some ⟨0, 0, 0⟩, 0, 1, 14, false, ⟨1, 0, 0, 0⟩,
         ⟨1, 0, 0, 0⟩, 0, ⟨0, 0, 0⟩, ⟨0, 0, 0⟩, ⟨0, 0, 0⟩,
         ⟨⟨0, 0, 0⟩, ⟨1, 0, 0, 0⟩, 14⟩, 0, 0, true⟩).phi ≤
      Real.pi - radians (90 - 85) :=
  orbit_drag_phi_within_bounds
    ⟨0.001, 0.04, 0.004, false, false, 0.01, 200, 85⟩
    ⟨Mode.ORBIT, some ⟨0, 0, 0⟩, 0, 1, 14, false, ⟨1, 0, 0, 0⟩,
     ⟨1, 0, 0, 0⟩, 0, ⟨0, 0, 0⟩, ⟨0, 0, 0⟩, ⟨0, 0, 0⟩,
     ⟨⟨0, 0, 0⟩, ⟨1, 0, 0, 0⟩, 14⟩, 0, 0, true⟩
    3 4 ⟨0, 0, 0⟩ rfl (by norm_num) (by norm_num)

/-- C4 (counterexample): a FOCUS drag with dy = 0 leaves the distance
untouched, so from a state whose distance 500 already exceeds
maxZoomDistance = 200 the post-drag distance is still out of bounds; the
claim that the distance lies within [minZoomDistance, maxZoomDistance] after
any FOCUS drag, including dy = 0, is false. -/
theorem focus_drag_distance_counterexample :
    ¬ ((handle_focus_drag ⟨0.001, 0.04, 0.004, false, false, 0.01, 200, 85⟩
        0 0
        ⟨Mode.FOCUS, some ⟨0, 0, 0⟩, 0, 1, 500, false, ⟨1, 0, 0, 0⟩,
         ⟨1, 0, 0, 0⟩, 0, ⟨0, 0, 0⟩, ⟨0, 0, 0⟩, ⟨0, 0, 0⟩,
         ⟨⟨0, 0, 0⟩, ⟨1, 0, 0, 0⟩, 500⟩, 0, 0, true⟩).distance ≤ 200) := by
  norm_num [handle_focus_drag, update_camera_position]

/-- C4 (amended): after any FOCUS drag with dy ≠ 0 (of any magnitude) the
distance lies within [minZoomDistance, maxZoomDistance]; a FOCUS drag with
dy = 0 leaves the distance unchanged, so the bound then holds exactly when
it already held before the drag. -/
theorem focus_drag_distance_clamped (p : Prefs) (s : State) (dx dy : ℝ)
    (tgt : Vec3) (htgt : s.target_point = some tgt)
    (hminmax : p.min_zoom_distance ≤ p.max_zoom_distance) :
    (dy ≠ 0 →
      p.min_zoom_distance ≤ (handle_focus_drag p dx dy s).distance ∧
      (handle_focus_drag p dx dy s).distance ≤ p.max_zoom_distance) ∧
    (dy = 0 → (handle_focus_drag p dx dy s).distance = s.distance) := by
  constructor
  · intro hdy
    have hd : (handle_focus_drag p dx dy s).distance =
        max p.min_zoom_distance
          (min p.max_zoom_distance
            (s.distance + -dy * p.zoom_sensitivity *
              max 0.01 (0.01 + (s.distance * 0.1 - 0.01) *
                (s.distance / (s.distance + 0.5))))) := by
      unfold handle_focus_drag
      rw [htgt]
      simp [update_camera_position, hdy]
    rw [hd]
    exact ⟨le_max_left _ _, max_le hminmax (min_le_left _ _)⟩
  · intro hdy
    unfold handle_focus_drag
    rw [htgt, hdy]
    simp [update_camera_position]

theorem focus_drag_distance_clamped_witness :
    ((1 : ℝ) ≠ 0 →
      (0.01 : ℝ) ≤ (handle_focus_drag
        ⟨0.001, 0.04, 0.004, false, false, 0.01, 200, 85⟩ 0 1
        ⟨Mode.FOCUS, some ⟨0, 0, 0⟩, 0, 1, 14, false, ⟨1, 0, 0, 0⟩,
         ⟨1, 0, 0, 0⟩, 0, ⟨0, 0, 0⟩, ⟨0, 0, 0⟩, ⟨0, 0, 0⟩,
         ⟨⟨0, 0, 0⟩, ⟨1, 0, 0, 0⟩, 14⟩, 0, 0, true⟩).distance ∧
      (handle_focus_drag
        ⟨0.001, 0.04, 0.004, false, false, 0.01, 200, 85⟩ 0 1
        ⟨Mode.FOCUS, some ⟨0, 0, 0⟩, 0, 1, 14, false, ⟨1, 0, 0, 0⟩,
         ⟨1, 0, 0, 0⟩, 0, ⟨0, 0, 0⟩, ⟨0, 0, 0⟩, ⟨0, 0, 0⟩,
         ⟨⟨0, 0, 0⟩, ⟨1, 0, 0, 0⟩, 14⟩, 0, 0, true⟩).distance ≤ 200) ∧
    ((1 : ℝ) = 0 →
      (handle_focus_drag
        ⟨0.001, 0.04, 0.004, false, false, 0.01, 200, 85⟩ 0 1
        ⟨Mode.FOCUS, some ⟨0, 0, 0⟩, 0, 1, 14, false, ⟨1, 0, 0, 0⟩,
         ⟨1, 0, 0, 0⟩, 0, ⟨0, 0, 0⟩, ⟨0, 0, 0⟩, ⟨0, 0, 0⟩,
         ⟨⟨0, 0, 0⟩, ⟨1, 0, 0, 0⟩, 14⟩, 0, 0, true⟩).distance = 14) :=
  focus_drag_distance_clamped
    ⟨0.001, 0.04, 0.004, false, false, 0.01, 200, 85⟩
    ⟨Mode.FOCUS, some ⟨0, 0, 0⟩, 0, 1, 14, false, ⟨1, 0, 0, 0⟩,
     ⟨1, 0, 0, 0⟩, 0, ⟨0, 0, 0⟩, ⟨0, 0, 0⟩, ⟨0, 0, 0⟩,
     ⟨⟨0, 0, 0⟩, ⟨1, 0, 0, 0⟩, 14⟩, 0, 0, true⟩
    0 1 ⟨0, 0, 0⟩ rfl (by norm_num)

/-- C8 (counterexample): an ORBIT drag with dx = 10, dy = 0,
invertHorizontal = false and orbitSensitivity = 0.004 does not always leave
φ unchanged: from φ = 0 (outside the elevation clamp bounds for limit 85°)
the drag clamps φ up to radians(5) ≠ 0. -/
theorem orbit_drag_scenario_counterexample :
    (handle_orbit_drag ⟨0.001, 0.04, 0.004, false, false, 0.01, 200, 85⟩
      10 0
      ⟨Mode.ORBIT, some ⟨0, 0, 0⟩, 0, 0, 14, false, ⟨1, 0, 0, 0⟩,
       ⟨1, 0, 0, 0⟩, 0, ⟨0, 0, 0⟩, ⟨0, 0, 0⟩, ⟨0, 0, 0⟩,
       ⟨⟨0, 0, 0⟩, ⟨1, 0, 0, 0⟩, 14⟩, 0, 0, true⟩).phi ≠ 0 := by
  have hpi := Real.pi_pos
  have h : (handle_orbit_drag ⟨0.001, 0.04, 0.004, false, false, 0.01, 200, 85⟩
      10 0
      ⟨Mode.ORBIT, some ⟨0, 0, 0⟩, 0, 0, 14, false, ⟨1, 0, 0, 0⟩,
       ⟨1, 0, 0, 0⟩, 0, ⟨0, 0, 0⟩, ⟨0, 0, 0⟩, ⟨0, 0, 0⟩,
       ⟨⟨0, 0, 0⟩, ⟨1, 0, 0, 0⟩, 14⟩, 0, 0, true⟩).phi =
      max (radians (90 - 85)) (min (Real.pi - radians (90 - 85)) 0) := by
    norm_num [handle_orbit_drag, update_camera_position]
  rw [h, radians]
  rw [min_eq_right (by nlinarith), max_eq_left (by nlinarith)]
  positivity

/-- C8 (amended): an ORBIT drag with dx = 10, dy = 0,
invertHorizontal = false and orbitSensitivity = 0.004, executed with a
target point present and with φ already within the elevation clamp bounds,
decreases θ by exactly 0.04 radians and leaves φ unchanged. -/
theorem orbit_drag_scenario (p : Prefs) (s : State) (tgt : Vec3)
    (htgt : s.target_point = some tgt)
    (hinv : p.invert_horizontal = false)
    (hsens : p.orbit_sensitivity = 0.004)
    (hphi1 : radians (90 - p.orbit_elevation_limit) ≤ s.phi)
    (hphi2 : s.phi ≤ Real.pi - radians (90 - p.orbit_elevation_limit)) :
    (handle_orbit_drag p 10 0 s).theta = s.theta - 0.04 ∧
    (handle_orbit_drag p 10 0 s).phi = s.phi := by
  unfold handle_orbit_drag
  rw [htgt]
  constructor
  · simp [update_camera_position, hinv, hsens]
    ring
  · simp [update_camera_position]
    rw [min_eq_right hphi2, max_eq_right hphi1]

theorem orbit_drag_scenario_witness :
    (handle_orbit_drag ⟨0.001, 0.04, 0.004, false, false, 0.01, 200, 85⟩
      10 0
      ⟨Mode.ORBIT, some ⟨0, 0, 0⟩, 0.3, Real.pi / 2, 14, false, ⟨1, 0, 0, 0⟩,
       ⟨1, 0, 0, 0⟩, 0, ⟨0, 0, 0⟩, ⟨0, 0, 0⟩, ⟨0, 0, 0⟩,
       ⟨⟨0, 0, 0⟩, ⟨1, 0, 0, 0⟩, 14⟩, 0, 0, true⟩).theta = 0.3 - 0.04 ∧
    (handle_orbit_drag ⟨0.001, 0.04, 0.004, false, false, 0.01, 200, 85⟩
      10 0
      ⟨Mode.ORBIT, some ⟨0, 0, 0⟩, 0.3, Real.pi / 2, 14, false, ⟨1, 0, 0, 0⟩,
       ⟨1, 0, 0, 0⟩, 0, ⟨0, 0, 0⟩, ⟨0, 0, 0⟩, ⟨0, 0, 0⟩,
       ⟨⟨0, 0, 0⟩, ⟨1, 0, 0, 0⟩, 14⟩, 0, 0, true⟩).phi = Real.pi / 2 :=
  orbit_drag_scenario
    ⟨0.001, 0.04, 0.004, false, false, 0.01, 200, 85⟩
    ⟨Mode.ORBIT, some ⟨0, 0, 0⟩, 0.3, Real.pi / 2, 14, false, ⟨1, 0, 0, 0⟩,
     ⟨1, 0, 0, 0⟩, 0, ⟨0, 0, 0⟩, ⟨0, 0, 0⟩, ⟨0, 0, 0⟩,
     ⟨⟨0, 0, 0⟩, ⟨1, 0, 0, 0⟩, 14⟩, 0, 0, true⟩
    ⟨0, 0, 0⟩ rfl rfl rfl
    (by rw [radians]; nlinarith [Real.pi_pos])
    (by rw [radians]; nlinarith [Real.pi_pos])

/-- C10: FOCUS and ORBIT drag handlers never modify the target point; a
FOCUS drag changes only θ and distance (φ, mode and the transition flag are
untouched), an ORBIT drag changes only θ and φ (distance, mode and the
transition flag are untouched), and when a target is present the written
camera pose is recomputed around the unchanged target (the written
view_location is the target itself). -/
theorem focus_orbit_preserve_target (p : Prefs) (s : State) (dx dy : ℝ) :
    (handle_focus_drag p dx dy s).target_point = s.target_point ∧
    (handle_focus_drag p dx dy s).phi = s.phi ∧
    (handle_focus_drag p dx dy s).mode = s.mode ∧
    (handle_focus_drag p dx dy s).is_transitioning = s.is_transitioning ∧
    (handle_orbit_drag p dx dy s).target_point = s.target_point ∧
    (handle_orbit_drag p dx dy s).distance = s.distance ∧
    (handle_orbit_drag p dx dy s).mode = s.mode ∧
    (handle_orbit_drag p dx dy s).is_transitioning = s.is_transitioning ∧
    (∀ tgt : Vec3, s.target_point = some tgt →
      (handle_focus_drag p dx dy s).rv3d.view_location = tgt ∧
      (handle_orbit_drag p dx dy s).rv3d.view_location = tgt) := by
  cases h : s.target_point with
  | none =>
    unfold handle_focus_drag handle_orbit_drag
    rw [h]
    simp [h]
  | some t =>
    unfold handle_focus_drag handle_orbit_drag
    rw [h]
    by_cases hdy : dy ≠ 0 <;>
      simp [update_camera_position, hdy, h]

theorem focus_orbit_preserve_target_witness :
    (handle_focus_drag ⟨0.001, 0.04, 0.004, false, false, 0.01, 200, 85⟩ 2 3
      ⟨Mode.FOCUS, some ⟨5, 6, 7⟩, 0.3, 0.7, 14, false, ⟨1, 0, 0, 0⟩,
       ⟨1, 0, 0, 0⟩, 0, ⟨0, 0, 0⟩, ⟨0, 0, 0⟩, ⟨0, 0, 0⟩,
       ⟨⟨0, 0, 0⟩, ⟨1, 0, 0, 0⟩, 14⟩, 0, 0, true⟩).target_point =
      some ⟨5, 6, 7⟩ ∧
    (handle_focus_drag ⟨0.001, 0.04, 0.004, false, false, 0.01, 200, 85⟩ 2 3
      ⟨Mode.FOCUS, some ⟨5, 6, 7⟩, 0.3, 0.7, 14, false, ⟨1, 0, 0, 0⟩,
       ⟨1, 0, 0, 0⟩, 0, ⟨0, 0, 0⟩, ⟨0, 0, 0⟩, ⟨0, 0, 0⟩,
       ⟨⟨0, 0, 0⟩, ⟨1, 0, 0, 0⟩, 14⟩, 0, 0, true⟩).rv3d.view_location =
      ⟨5, 6, 7⟩ ∧
    (handle_orbit_drag ⟨0.001, 0.04, 0.004, false, false, 0.01, 200, 85⟩ 2 3
      ⟨Mode.FOCUS, some ⟨5, 6, 7⟩, 0.3, 0.7, 14, false, ⟨1, 0, 0, 0⟩,
       ⟨1, 0, 0, 0⟩, 0, ⟨0, 0, 0⟩, ⟨0, 0, 0⟩, ⟨0, 0, 0⟩,
       ⟨⟨0, 0, 0⟩, ⟨1, 0, 0, 0⟩, 14⟩, 0, 0, true⟩).rv3d.view_location =
      ⟨5, 6, 7⟩ := by
  have h := focus_orbit_preserve_target
    ⟨0.001, 0.04, 0.004, false, false, 0.01, 200, 85⟩
    ⟨Mode.FOCUS, some ⟨5, 6, 7⟩, 0.3, 0.7, 14, false, ⟨1, 0, 0, 0⟩,
     ⟨1, 0, 0, 0⟩, 0, ⟨0, 0, 0⟩, ⟨0, 0, 0⟩, ⟨0, 0, 0⟩,
     ⟨⟨0, 0, 0⟩, ⟨1, 0, 0, 0⟩, 14⟩, 0, 0, true⟩ 2 3
  exact ⟨h.1, (h.2.2.2.2.2.2.2.2 ⟨5, 6, 7⟩ rfl).1,
    (h.2.2.2.2.2.2.2.2 ⟨5, 6, 7⟩ rfl).2⟩

/-- C7: on a raycast miss, a click in FOCUS or ORBIT mode (both dispatch to
`_handle_target_click`) sets the target point to None — so a subsequent
FOCUS drag is a no-op leaving the whole state, including the written pose,
unchanged — while a click in PAN mode (`_handle_pan_click`) leaves the
state, including the prior target point, unchanged. -/
theorem raycast_miss_handling (p : Prefs) (s : State) (dx dy now : ℝ) :
    handle_target_click now none s = { s with target_point := none } ∧
    handle_focus_drag p dx dy { s with target_point := none } =
      { s with target_point := none } ∧
    handle_pan_click now none s = s :=
  ⟨rfl, rfl, rfl⟩

/-- C9 (counterexample): the PAN drag handler is not a no-op when the target
point is absent: it does not guard the target, and
`self.target_point += pan_vec` faults on a `None` target instead of
returning the state unchanged. -/
theorem pan_drag_no_target_counterexample :
    handle_pan_drag ⟨0.001, 0.04, 0.004, false, false, 0.01, 200, 85⟩ 1 0
      ⟨Mode.PAN, none, 0, 1, 14, false, ⟨1, 0, 0, 0⟩, ⟨1, 0, 0, 0⟩, 0,
       ⟨0, 0, 0⟩, ⟨0, 0, 0⟩, ⟨0, 0, 0⟩, ⟨⟨0, 0, 0⟩, ⟨1, 0, 0, 0⟩, 14⟩,
       0, 0, true⟩ ≠
    some ⟨Mode.PAN, none, 0, 1, 14, false, ⟨1, 0, 0, 0⟩, ⟨1, 0, 0, 0⟩, 0,
       ⟨0, 0, 0⟩, ⟨0, 0, 0⟩, ⟨0, 0, 0⟩, ⟨⟨0, 0, 0⟩, ⟨1, 0, 0, 0⟩, 14⟩,
       0, 0, true⟩ := by
  simp [handle_pan_drag]

/-- C9 (amended): the FOCUS and ORBIT drag handlers are no-ops when the
target point is absent; the PAN drag handler does not check the target and
faults (yields no successor state) when it is absent; and no drag handler
runs while a transition is in flight — mouse movement during a transition
only updates the last-pointer-position record. -/
theorem drag_handler_guards (p : Prefs) (s : State) (dx dy mx my : ℝ) :
    (s.target_point = none → handle_focus_drag p dx dy s = s) ∧
    (s.target_point = none → handle_orbit_drag p dx dy s = s) ∧
    (s.target_point = none → handle_pan_drag p dx dy s = none) ∧
    (s.is_transitioning = true →
      handle_mouse_move p mx my s =
        some { s with last_x := mx, last_y := my }) := by
  refine ⟨fun h => ?_, fun h => ?_, fun h => ?_, fun h => ?_⟩
  · unfold handle_focus_drag
    rw [h]
  · unfold handle_orbit_drag
    rw [h]
  · unfold handle_pan_drag
    rw [h]
  · simp [handle_mouse_move, h]

theorem drag_handler_guards_witness :
    handle_focus_drag ⟨0.001, 0.04, 0.004, false, false, 0.01, 200, 85⟩ 1 2
      ⟨Mode.FOCUS, none, 0, 1, 14, true, ⟨1, 0, 0, 0⟩, ⟨1, 0, 0, 0⟩, 0,
       ⟨0, 0, 0⟩, ⟨0, 0, 0⟩, ⟨0, 0, 0⟩, ⟨⟨0, 0, 0⟩, ⟨1, 0, 0, 0⟩, 14⟩,
       0, 0, true⟩ =
      ⟨Mode.FOCUS, none, 0, 1, 14, true, ⟨1, 0, 0, 0⟩, ⟨1, 0, 0, 0⟩, 0,
       ⟨0, 0, 0⟩, ⟨0, 0, 0⟩, ⟨0, 0, 0⟩, ⟨⟨0, 0, 0⟩, ⟨1, 0, 0, 0⟩, 14⟩,
       0, 0, true⟩ ∧
    handle_orbit_drag ⟨0.001, 0.04, 0.004, false, false, 0.01, 200, 85⟩ 1 2
      ⟨Mode.FOCUS, none, 0, 1, 14, true, ⟨1, 0, 0, 0⟩, ⟨1, 0, 0, 0⟩, 0,
       ⟨0, 0, 0⟩, ⟨0, 0, 0⟩, ⟨0, 0, 0⟩, ⟨⟨0, 0, 0⟩, ⟨1, 0, 0, 0⟩, 14⟩,
       0, 0, true⟩ =
      ⟨Mode.FOCUS, none, 0, 1, 14, true, ⟨1, 0, 0, 0⟩, ⟨1, 0, 0, 0⟩, 0,
       ⟨0, 0, 0⟩, ⟨0, 0, 0⟩, ⟨0, 0, 0⟩, ⟨⟨0, 0, 0⟩, ⟨1, 0, 0, 0⟩, 14⟩,
       0, 0, true⟩ ∧
    handle_pan_drag ⟨0.001, 0.04, 0.004, false, false, 0.01, 200, 85⟩ 1 2
      ⟨Mode.FOCUS, none, 0, 1, 14, true, ⟨1, 0, 0, 0⟩, ⟨1, 0, 0, 0⟩, 0,
       ⟨0, 0, 0⟩, ⟨0, 0, 0⟩, ⟨0, 0, 0⟩, ⟨⟨0, 0, 0⟩, ⟨1, 0, 0, 0⟩, 14⟩,
       0, 0, true⟩ = none ∧
    handle_mouse_move ⟨0.001, 0.04, 0.004, false, false, 0.01, 200, 85⟩ 3 4
      ⟨Mode.FOCUS, none, 0, 1, 14, true, ⟨1, 0, 0, 0⟩, ⟨1, 0, 0, 0⟩, 0,
       ⟨0, 0, 0⟩, ⟨0, 0, 0⟩, ⟨0, 0, 0⟩, ⟨⟨0, 0, 0⟩, ⟨1, 0, 0, 0⟩, 14⟩,
       0, 0, true⟩ =
      some ⟨Mode.FOCUS, none, 0, 1, 14, true, ⟨1, 0, 0, 0⟩, ⟨1, 0, 0, 0⟩, 0,
       ⟨0, 0, 0⟩, ⟨0, 0, 0⟩, ⟨0, 0, 0⟩, ⟨⟨0, 0, 0⟩, ⟨1, 0, 0, 0⟩, 14⟩,
       3, 4, true⟩ := by
  have h := drag_handler_guards
    ⟨0.001, 0.04, 0.004, false, false, 0.01, 200, 85⟩
    ⟨Mode.FOCUS, none, 0, 1, 14, true, ⟨1, 0, 0, 0⟩, ⟨1, 0, 0, 0⟩, 0,
     ⟨0, 0, 0⟩, ⟨0, 0, 0⟩, ⟨0, 0, 0⟩, ⟨⟨0, 0, 0⟩, ⟨1, 0, 0, 0⟩, 14⟩,
     0, 0, true⟩ 1 2 3 4
  exact ⟨h.1 rfl, h.2.1 rfl, h.2.2.1 rfl, h.2.2.2 rfl⟩

/-- C6: changing mode from FOCUS to PAN while a transition is in flight
cancels the transition without finalizing it: the transition flag becomes
false, the written viewport pose stays at its last interpolated value
(`_set_mode` writes nothing to the view), and a subsequent PAN drag operates
from that pose — its pan vector is computed from the preserved view rotation
and it translates the preserved view location and target point. -/
theorem mode_change_cancels_transition (p : Prefs) (s : State) (tgt : Vec3)
    (dx dy : ℝ) (hmode : s.mode = Mode.FOCUS)
    (htrans : s.is_transitioning = true)
    (htgt : s.target_point = some tgt) :
    (set_mode Mode.PAN s).is_transitioning = false ∧
    (set_mode Mode.PAN s).rv3d = s.rv3d ∧
    handle_pan_drag p dx dy (set_mode Mode.PAN s) =
      some { s with
        mode := Mode.PAN,
        is_transitioning := false,
        target_point :=
          some (tgt + pan_vec p s.rv3d.view_rotation s.distance dx dy),
        rv3d := { s.rv3d with view_location :=
          (s.rv3d.view_location +
            pan_vec p s.rv3d.view_rotation s.distance dx dy) } } := by
  have hs : set_mode Mode.PAN s =
      { s with mode := Mode.PAN, is_transitioning := false } := by
    unfold set_mode
    rw [if_neg (by rw [hmode]; simp), htgt]
  rw [hs]
  refine ⟨rfl, rfl, ?_⟩
  simp [handle_pan_drag, htgt]

theorem mode_change_cancels_transition_witness :
    (set_mode Mode.PAN
      ⟨Mode.FOCUS, some ⟨1, 2, 3⟩, 0, 1, 14, true, ⟨1, 0, 0, 0⟩,
       ⟨0, 1, 0, 0⟩, 0, ⟨0, 0, 0⟩, ⟨1, 2, 3⟩, ⟨4, 5, 6⟩,
       ⟨⟨7, 8, 9⟩, ⟨0, 0, 1, 0⟩, 14⟩, 0, 0, true⟩).is_transitioning =
      false ∧
    (set_mode Mode.PAN
      ⟨Mode.FOCUS, some ⟨1, 2, 3⟩, 0, 1, 14, true, ⟨1, 0, 0, 0⟩,
       ⟨0, 1, 0, 0⟩, 0, ⟨0, 0, 0⟩, ⟨1, 2, 3⟩, ⟨4, 5, 6⟩,
       ⟨⟨7, 8, 9⟩, ⟨0, 0, 1, 0⟩, 14⟩, 0, 0, true⟩).rv3d =
      ⟨⟨7, 8, 9⟩, ⟨0, 0, 1, 0⟩, 14⟩ ∧
    handle_pan_drag ⟨0.001, 0.04, 0.004, false, false, 0.01, 200, 85⟩ 2 3
      (set_mode Mode.PAN
        ⟨Mode.FOCUS, some ⟨1, 2, 3⟩, 0, 1, 14, true, ⟨1, 0, 0, 0⟩,
         ⟨0, 1, 0, 0⟩, 0, ⟨0, 0, 0⟩, ⟨1, 2, 3⟩, ⟨4, 5, 6⟩,
         ⟨⟨7, 8, 9⟩, ⟨0, 0, 1, 0⟩, 14⟩, 0, 0, true⟩) =
      some ⟨Mode.PAN,
        some (Vec3.mk 1 2 3 +
          pan_vec ⟨0.001, 0.04, 0.004, false, false, 0.01, 200, 85⟩
            ⟨0, 0, 1, 0⟩ 14 2 3),
        0, 1, 14, false, ⟨1, 0, 0, 0⟩, ⟨0, 1, 0, 0⟩, 0, ⟨0, 0, 0⟩,
        ⟨1, 2, 3⟩, ⟨4, 5, 6⟩,
        ⟨Vec3.mk 7 8 9 +
          pan_vec ⟨0.001, 0.04, 0.004, false, false, 0.01, 200, 85⟩
            ⟨0, 0, 1, 0⟩ 14 2 3, ⟨0, 0, 1, 0⟩, 14⟩, 0, 0, true⟩ :=
  mode_change_cancels_transition
    ⟨0.001, 0.04, 0.004, false, false, 0.01, 200, 85⟩
    ⟨Mode.FOCUS, some ⟨1, 2, 3⟩, 0, 1, 14, true, ⟨1, 0, 0, 0⟩,
     ⟨0, 1, 0, 0⟩, 0, ⟨0, 0, 0⟩, ⟨1, 2, 3⟩, ⟨4, 5, 6⟩,
     ⟨⟨7, 8, 9⟩, ⟨0, 0, 1, 0⟩, 14⟩, 0, 0, true⟩
    ⟨1, 2, 3⟩ 2 3 rfl rfl rfl

/-- C1: for every target point, every θ, every φ within the configured
elevation bounds (limit in [45, 89] degrees), and every distance within
[minZoomDistance, maxZoomDistance] (with the minimum at least its configured
lower bound 0.0001), applying the spherical-to-Cartesian position formula of
`_update_camera_position` and then `_direction_to_spherical` to
position − target recovers θ modulo 2π and recovers φ exactly. -/
theorem spherical_roundtrip (target : Vec3) (theta phi d dmin dmax L : ℝ)
    (hL1 : 45 ≤ L) (hL2 : L ≤ 89)
    (hphi1 : radians (90 - L) ≤ phi)
    (hphi2 : phi ≤ Real.pi - radians (90 - L))
    (hdmin : 0.0001 ≤ dmin) (hd1 : dmin ≤ d) (hd2 : d ≤ dmax) :
    (((direction_to_spherical
        (camera_position target theta phi d - target) 0 0).1 : ℝ) :
      Real.Angle) = (theta : Real.Angle) ∧
    (direction_to_spherical
        (camera_position target theta phi d - target) 0 0).2 = phi := by
  have hpi := Real.pi_pos
  have hd0 : (0 : ℝ) < d := by linarith
  have hphi0 : 0 < phi := by
    have : 0 < radians (90 - L) := by rw [radians]; nlinarith
    linarith
  have hphip : phi < Real.pi := by
    have : 0 < radians (90 - L) := by rw [radians]; nlinarith
    linarith
  have hsin : 0 < Real.sin phi := Real.sin_pos_of_pos_of_lt_pi hphi0 hphip
  have hdir : camera_position target theta phi d - target =
      (⟨d * Real.sin phi * Real.cos theta, d * Real.sin phi * Real.sin theta,
        d * Real.cos phi⟩ : Vec3) := by
    apply vec3_ext <;> simp [camera_position]
  have hlen : (⟨d * Real.sin phi * Real.cos theta,
      d * Real.sin phi * Real.sin theta, d * Real.cos phi⟩ : Vec3).length =
      d := by
    show Real.sqrt ((d * Real.sin phi * Real.cos theta) ^ 2 +
      (d * Real.sin phi * Real.sin theta) ^ 2 + (d * Real.cos phi) ^ 2) = d
    have hsum : (d * Real.sin phi * Real.cos theta) ^ 2 +
        (d * Real.sin phi * Real.sin theta) ^ 2 + (d * Real.cos phi) ^ 2 =
        d ^ 2 := by
      have h1 := Real.sin_sq_add_cos_sq theta
      have h2 := Real.sin_sq_add_cos_sq phi
      linear_combination (d ^ 2 * Real.sin phi ^ 2) * h1 + d ^ 2 * h2
    rw [hsum]
    exact Real.sqrt_sq hd0.le
  have hnorm : (⟨d * Real.sin phi * Real.cos theta,
      d * Real.sin phi * Real.sin theta, d * Real.cos phi⟩ : Vec3).normalized =
      (⟨Real.sin phi * Real.cos theta, Real.sin phi * Real.sin theta,
        Real.cos phi⟩ : Vec3) := by
    unfold Vec3.normalized
    rw [hlen, if_neg hd0.ne']
    have hdne : d ≠ 0 := hd0.ne'
    apply vec3_ext <;> field_simp <;> ring
  rw [hdir]
  unfold direction_to_spherical
  rw [if_pos (by rw [hlen]; exact hd0)]
  rw [hnorm]
  constructor
  · show ((atan2 (Real.sin phi * Real.sin theta)
        (Real.sin phi * Real.cos theta) : ℝ) : Real.Angle) =
      (theta : Real.Angle)
    unfold atan2
    have hc : (⟨Real.sin phi * Real.cos theta,
        Real.sin phi * Real.sin theta⟩ : ℂ) =
        ((Real.sin phi : ℂ) *
          ((Real.cos theta : ℂ) + (Real.sin theta : ℂ) * Complex.I)) := by
      rw [Complex.mk_eq_add_mul_I]
      push_cast
      ring
    rw [hc]
    have harg := Complex.arg_mul_cos_add_sin_mul_I_coe_angle hsin
      (theta : Real.Angle)
    rw [Real.Angle.cos_coe, Real.Angle.sin_coe] at harg
    exact harg
  · show Real.arccos (max (-1) (min 1 (Real.cos phi))) = phi
    rw [min_eq_right (Real.cos_le_one phi),
      max_eq_right (Real.neg_one_le_cos phi),
      Real.arccos_cos hphi0.le hphip.le]

theorem spherical_roundtrip_witness :
    (((direction_to_spherical
        (camera_position ⟨0, 0, 0⟩ 0 (Real.pi / 2) 14 - ⟨0, 0, 0⟩) 0 0).1 :
        ℝ) : Real.Angle) = ((0 : ℝ) : Real.Angle) ∧
    (direction_to_spherical
        (camera_position ⟨0, 0, 0⟩ 0 (Real.pi / 2) 14 - ⟨0, 0, 0⟩) 0 0).2 =
      Real.pi / 2 :=
  spherical_roundtrip ⟨0, 0, 0⟩ 0 (Real.pi / 2) 14 0.01 200 85
    (by norm_num) (by norm_num)
    (by rw [radians]; nlinarith [Real.pi_pos])
    (by rw [radians]; nlinarith [Real.pi_pos])
    (by norm_num) (by norm_num) (by norm_num)

end SLCamera
